import Mathlib

/-!
Shallow embedding of the todo frontend's reconciliation logic
(src/todo_frontend/src/App.js) and its HTTP request wrapper
(src/todo_frontend/src/api/todos.js).

JavaScript runtime values that can flow through these functions are
modelled by `JSValue`; machinery like optional chaining (`x?.k`),
nullish coalescing (`a ?? b`), truthiness, and the value-returning
`||` / `&&` operators is translated explicitly.  Each asynchronous
handler is modelled as a big-step function from the component state and
the outcome of its awaited network call(s) to the final component state
together with the list of API calls it issued.
-/

namespace TodoApp

/-- Model of a JavaScript runtime value (JSON values plus `undefined`).
Numbers are modelled as integers: only integral ids/flags flow through
this program.  Object fields are an association list with unique keys. -/
inductive JSValue where
  | undefined : JSValue
  | null : JSValue
  | bool : Bool → JSValue
  | num : Int → JSValue
  | str : String → JSValue
  | arr : List JSValue → JSValue
  | obj : List (String × JSValue) → JSValue

mutual

def jsDecEq (v₁ v₂ : JSValue) : Decidable (v₁ = v₂) := by
  cases v₁ <;> cases v₂ <;>
    try { apply isFalse; intro h; injection h }
  case undefined.undefined => exact isTrue rfl
  case null.null => exact isTrue rfl
  case bool.bool a b =>
    exact match decEq a b with
    | isTrue h => isTrue (by rw [h])
    | isFalse hn => isFalse (by intro h; injection h; contradiction)
  case num.num a b =>
    exact match decEq a b with
    | isTrue h => isTrue (by rw [h])
    | isFalse hn => isFalse (by intro h; injection h; contradiction)
  case str.str a b =>
    exact match decEq a b with
    | isTrue h => isTrue (by rw [h])
    | isFalse hn => isFalse (by intro h; injection h; contradiction)
  case arr.arr a b =>
    exact match jsDecEqList a b with
    | isTrue h => isTrue (by rw [h])
    | isFalse hn => isFalse (by intro h; injection h; contradiction)
  case obj.obj a b =>
    exact match jsDecEqFields a b with
    | isTrue h => isTrue (by rw [h])
    | isFalse hn => isFalse (by intro h; injection h; contradiction)

def jsDecEqList (xs ys : List JSValue) : Decidable (xs = ys) :=
  match xs, ys with
  | [], [] => isTrue rfl
  | _ :: _, [] | [], _ :: _ => isFalse (by intro h; injection h)
  | x :: xs, y :: ys =>
    match jsDecEq x y, jsDecEqList xs ys with
    | isTrue h₁, isTrue h₂ => isTrue (by rw [h₁, h₂])
    | isFalse hn, _ => isFalse (by intro h; injection h; contradiction)
    | _, isFalse hn => isFalse (by intro h; injection h; contradiction)

def jsDecEqFields (xs ys : List (String × JSValue)) : Decidable (xs = ys) :=
  match xs, ys with
  | [], [] => isTrue rfl
  | _ :: _, [] | [], _ :: _ => isFalse (by intro h; injection h)
  | (k₁, v₁) :: xs, (k₂, v₂) :: ys =>
    match decEq k₁ k₂, jsDecEq v₁ v₂, jsDecEqFields xs ys with
    | isTrue h₁, isTrue h₂, isTrue h₃ => isTrue (by rw [h₁, h₂, h₃])
    | isFalse hn, _, _ =>
      isFalse (by intro h; injection h with h h₂; injection h; contradiction)
    | _, isFalse hn, _ =>
      isFalse (by intro h; injection h with h h₂; injection h; contradiction)
    | _, _, isFalse hn => isFalse (by intro h; injection h; contradiction)

end

instance : DecidableEq JSValue := jsDecEq

/-- A value is nullish iff it is `undefined` or `null` (the values the
`??` operator and `?.` chaining skip over). -/
def isNullish : JSValue → Bool
  | .undefined => true
  | .null => true
  | _ => false

/-- JavaScript truthiness of a value ( `Boolean(v)` / `if (v)` ). -/
def truthy : JSValue → Bool
  | .undefined => false
  | .null => false
  | .bool b => b
  | .num n => n != 0
  | .str s => s != ""
  | .arr _ => true
  | .obj _ => true

/-- Optional-chained property access `v?.k`: `undefined` when `v` is
nullish or has no such field; primitives and arrays have none of the
fields this program reads. -/
def getProp : JSValue → String → JSValue
  | .obj fields, k =>
    match fields.lookup k with
    | some v => v
    | none => .undefined
  | _, _ => .undefined

/-- Nullish coalescing `a ?? b`. -/
def nco (a b : JSValue) : JSValue := if isNullish a then b else a

/-- Value-returning logical or `a || b`. -/
def jsOr (a b : JSValue) : JSValue := if truthy a then a else b

/-- Value-returning logical and `a && b`. -/
def jsAnd (a b : JSValue) : JSValue := if truthy a then b else a

/-- `typeof v === "object"` (true for objects, arrays and `null`). -/
def isObjectType : JSValue → Bool
  | .null => true
  | .arr _ => true
  | .obj _ => true
  | _ => false

/-- `typeof v === "string"`. -/
def isStringType : JSValue → Bool
  | .str _ => true
  | _ => false

mutual

/-- The `String(v)` coercion applied by the `Error` constructor to a
non-string message value. -/
def jsToDisplayString : JSValue → String
  | .undefined => "undefined"
  | .null => "null"
  | .bool b => if b then "true" else "false"
  | .num n => toString n
  | .str s => s
  | .arr xs => String.intercalate "," (jsToDisplayStringList xs)
  | .obj _ => "[object Object]"

def jsToDisplayStringList : List JSValue → List String
  | [] => []
  | x :: xs => jsToDisplayString x :: jsToDisplayStringList xs

end

/-- The normalized task shape produced by `normalizeTodo` in App.js:
`{ id, title, completed, raw }`.  `id` and `title` stay raw JS values
(they may be `undefined` when no recognized field is present);
`completed` is forced to a boolean by `Boolean(...)`. -/
structure Todo where
  id : JSValue
  title : JSValue
  completed : Bool
  raw : JSValue
deriving DecidableEq

/-- App.js `normalizeTodo`:
`id = raw?.id ?? raw?.todo_id ?? raw?._id`,
`title = raw?.title ?? raw?.text ?? ""`,
`completed = Boolean(raw?.completed ?? raw?.is_completed ?? raw?.done)`. -/
def normalizeTodo (raw : JSValue) : Todo :=
  { id := nco (getProp raw "id") (nco (getProp raw "todo_id") (getProp raw "_id"))
  , title := nco (getProp raw "title") (nco (getProp raw "text") (.str ""))
  , completed :=
      truthy (nco (getProp raw "completed")
        (nco (getProp raw "is_completed") (getProp raw "done")))
  , raw := raw }

/-- An `Error` thrown by the request wrapper: its `message`, and the
`status` / `payload` properties attached to application-level errors
(absent on timeout and transport errors). -/
structure JsErr where
  message : String
  status : Option Nat := none
  payload : Option JSValue := none
deriving DecidableEq

/-- todos.js: `const DEFAULT_TIMEOUT_MS = 15000;`. -/
def DEFAULT_TIMEOUT_MS : Nat := 15000

/-- `res.ok`: status in the 2xx range. -/
def resOk (status : Nat) : Bool := 200 ≤ status && status < 300

/-- The failure-message selection in `fetchJson`:
`(payload && typeof payload === "object" && payload.detail) ||
 (typeof payload === "string" && payload) ||
 "Request failed with status N"`. -/
def statusMessageValue (status : Nat) (payload : JSValue) : JSValue :=
  jsOr (jsAnd (jsAnd payload (.bool (isObjectType payload))) (getProp payload "detail"))
    (jsOr (jsAnd (.bool (isStringType payload)) payload)
      (.str ("Request failed with status " ++ toString status)))

/-- Outcome of the underlying `fetch` as observed by `fetchJson`: the
timeout fired and aborted the request (`AbortError`), some other
network-level rejection, or a response with a status code and decoded
body (the JSON payload, or the body text as a string value). -/
inductive FetchOutcome where
  | timeout : FetchOutcome
  | netError : String → FetchOutcome
  | response : Nat → JSValue → FetchOutcome
deriving DecidableEq

/-- todos.js `fetchJson`, as a function of the fetch outcome: an
`AbortError` becomes the fixed timeout error; other rejections are
rethrown unchanged; a non-2xx response becomes an error carrying the
selected message, the numeric status and the payload; a 2xx response
returns its payload. -/
def fetchJson : FetchOutcome → Except JsErr JSValue
  | .timeout => .error { message := "Request timed out. Please try again." }
  | .netError m => .error { message := m }
  | .response status payload =>
    if resOk status then .ok payload
    else
      .error { message := jsToDisplayString (statusMessageValue status payload)
             , status := some status
             , payload := some payload }

/-- A network request issued through the api/todos.js wrappers, with the
JSON body the caller passes. -/
inductive ApiCall where
  | listTodos : ApiCall
  | createTodo : JSValue → ApiCall
  | updateTodo : JSValue → JSValue → ApiCall
  | deleteTodo : JSValue → ApiCall
deriving DecidableEq

/-- The component state held by the `App` component's `useState` hooks. -/
structure AppState where
  todos : List Todo
  initialLoading : Bool
  savingIds : List JSValue
  error : Option String
  newTitle : String
  editingId : JSValue
  editingTitle : String
deriving DecidableEq

/-- App.js `toErrorMessage`.  Errors reaching it here are always `Error`
objects (`JsErr`), so the `!e` and `typeof e === "string"` branches of
the source cannot fire; `e.message || "Something went wrong"` remains. -/
def toErrorMessage (e : JsErr) : String :=
  if e.message != "" then e.message else "Something went wrong"

/-- App.js `setSaving`: add to or remove from the `savingIds` set. -/
def setSaving (ids : List JSValue) (id : JSValue) (isSaving : Bool) : List JSValue :=
  if isSaving then (if id ∈ ids then ids else ids ++ [id])
  else ids.filter (fun x => x != id)

/-- JavaScript whitespace characters recognized by `String.trim` that
can occur in this program's input strings. -/
def isJsSpace (c : Char) : Bool :=
  c = ' ' || c = '\t' || c = '\n' || c = '\r' || c = '\x0b' || c = '\x0c'

/-- `s.trim()`: strip leading and trailing whitespace. -/
def jsTrim (s : String) : String :=
  String.mk (((s.data.dropWhile isJsSpace).reverse.dropWhile isJsSpace).reverse)

/-- App.js refresh, line 50:
`Array.isArray(res) ? res : res?.items || res?.todos || []`. -/
def coerceListResponse (res : JSValue) : JSValue :=
  match res with
  | .arr _ => res
  | _ => jsOr (getProp res "items") (jsOr (getProp res "todos") (.arr []))

/-- App.js refresh, line 51 body:
`arr.map(normalizeTodo).filter((t) => t.id !== undefined && t.id !== null)`. -/
def processTasks (xs : List JSValue) : List Todo :=
  (xs.map normalizeTodo).filter (fun t => !(isNullish t.id))

/-- The computation of the new todo list inside `refresh` from the
resolved `listTodos()` value: coerce the wire shape, then map/filter.
Calling `.map` on a non-array coerced value throws a `TypeError`
(caught by the surrounding `try`). -/
def refreshResult (res : JSValue) : Except String (List Todo) :=
  match coerceListResponse res with
  | .arr xs => .ok (processTasks xs)
  | _ => .error "arr.map is not a function"

/-- The state produced by App.js `refresh` from the `listTodos()`
outcome: clear the error, replace the list wholesale on success,
surface the message on failure, and clear `initialLoading` either way. -/
def refreshState (s : AppState) (res : Except JsErr JSValue) : AppState :=
  let s₁ := { s with error := none }
  let s₂ :=
    match res with
    | .ok v =>
      match refreshResult v with
      | .ok ts => { s₁ with todos := ts }
      | .error m => { s₁ with error := some (toErrorMessage { message := m }) }
    | .error e => { s₁ with error := some (toErrorMessage e) }
  { s₂ with initialLoading := false }

/-- App.js `refresh`: the state update together with the `listTodos`
call it issues. -/
def refresh (s : AppState) (res : Except JsErr JSValue) : AppState × List ApiCall :=
  (refreshState s res, [ApiCall.listTodos])

/-- The optimistic placeholder built in `handleAdd`:
`{ id: tempId, title, completed: false, raw: null }` where `tempId`
interpolates the current clock value after the prefix "temp-". -/
def optimisticTodo (now : Nat) (title : String) : Todo :=
  { id := .str ("temp-" ++ toString now), title := .str title
  , completed := false, raw := .null }

/-- The state right after `handleAdd`'s optimistic phase: error cleared,
placeholder prepended, input field cleared. -/
def handleAddOptimistic (s : AppState) (now : Nat) (title : String) : AppState :=
  { s with error := none
         , todos := optimisticTodo now title :: s.todos
         , newTitle := "" }

/-- App.js `handleAdd`, as a function of the clock value used for the
temporary id and the outcomes of `createTodo` and (on its failure) the
recovery `refresh`'s `listTodos`. -/
def handleAdd (s : AppState) (now : Nat) (create : Except JsErr JSValue)
    (refreshRes : Except JsErr JSValue) : AppState × List ApiCall :=
  let title := jsTrim s.newTitle
  if title = "" then (s, [])
  else
    let s₂ := handleAddOptimistic s now title
    match create with
    | .ok created =>
      let normalized := normalizeTodo created
      let replaced := s₂.todos.map
        (fun t => if t.id = (optimisticTodo now title).id then normalized else t)
      ({ s₂ with todos := replaced },
        [ApiCall.createTodo (.obj [("title", .str title)])])
    | .error e₂ =>
      let s₃ := { s₂ with error := some (toErrorMessage e₂) }
      let (s₄, cs) := refresh s₃ refreshRes
      (s₄, ApiCall.createTodo (.obj [("title", .str title)]) :: cs)

/-- App.js `handleToggle`, as a function of the outcomes of `updateTodo`
and (on its failure) the recovery `refresh`'s `listTodos`. -/
def handleToggle (s : AppState) (todo : Todo) (upd : Except JsErr JSValue)
    (refreshRes : Except JsErr JSValue) : AppState × List ApiCall :=
  if !(truthy todo.id) then (s, [])
  else
    let s₁ := { s with error := none }
    let s₂ := { s₁ with savingIds := setSaving s₁.savingIds todo.id true }
    let nextCompleted := !todo.completed
    let toggled := s₂.todos.map
      (fun t => if t.id = todo.id then { t with completed := nextCompleted } else t)
    let s₃ := { s₂ with todos := toggled }
    let (s₄, cs) :=
      match upd with
      | .ok _ => (s₃, ([] : List ApiCall))
      | .error e => refresh { s₃ with error := some (toErrorMessage e) } refreshRes
    ({ s₄ with savingIds := setSaving s₄.savingIds todo.id false },
      ApiCall.updateTodo todo.id (.obj [("completed", .bool nextCompleted)]) :: cs)

/-- App.js `cancelEdit`. -/
def cancelEdit (s : AppState) : AppState :=
  { s with editingId := .null, editingTitle := "" }

/-- App.js `saveEdit`, as a function of the outcomes of `updateTodo` and
(on its failure) the recovery `refresh`'s `listTodos`. -/
def saveEdit (s : AppState) (todo : Todo) (upd : Except JsErr JSValue)
    (refreshRes : Except JsErr JSValue) : AppState × List ApiCall :=
  let title := jsTrim s.editingTitle
  if title = "" then (s, [])
  else
    let s₁ := { s with error := none
                     , savingIds := setSaving s.savingIds todo.id true }
    let retitled := s₁.todos.map
      (fun t => if t.id = todo.id then { t with title := .str title } else t)
    let s₂ := { s₁ with todos := retitled }
    let (s₃, cs) :=
      match upd with
      | .ok _ => (cancelEdit s₂, ([] : List ApiCall))
      | .error e => refresh { s₂ with error := some (toErrorMessage e) } refreshRes
    ({ s₃ with savingIds := setSaving s₃.savingIds todo.id false },
      ApiCall.updateTodo todo.id (.obj [("title", .str title)]) :: cs)

/-- App.js `handleDelete`, as a function of the `deleteTodo` outcome:
optimistic removal, with snapshot rollback on failure. -/
def handleDelete (s : AppState) (todo : Todo) (del : Except JsErr JSValue) :
    AppState × List ApiCall :=
  if !(truthy todo.id) then (s, [])
  else
    let s₁ := { s with error := none
                     , savingIds := setSaving s.savingIds todo.id true }
    let before := s₁.todos
    let s₂ := { s₁ with todos := s₁.todos.filter (fun t => t.id != todo.id) }
    let s₃ :=
      match del with
      | .ok _ => s₂
      | .error e => { s₂ with error := some (toErrorMessage e), todos := before }
    ({ s₃ with savingIds := setSaving s₃.savingIds todo.id false },
      [ApiCall.deleteTodo todo.id])

/-! Concrete sample data used by witnesses and counterexamples. -/

/-- A task with an ordinary numeric id. -/
def sampleTodo : Todo :=
  { id := .num 1, title := .str "a", completed := false, raw := .null }

/-- A task whose id is the number 0 (present, non-null, but falsy). -/
def zeroIdTodo : Todo :=
  { id := .num 0, title := .str "z", completed := false, raw := .null }

/-- A quiescent state holding `sampleTodo`. -/
def sampleState : AppState :=
  { todos := [sampleTodo], initialLoading := false, savingIds := []
  , error := none, newTitle := "", editingId := .null, editingTitle := "" }

/-- An empty-list state with a pending input title. -/
def addState : AppState :=
  { todos := [], initialLoading := false, savingIds := []
  , error := none, newTitle := "x", editingId := .null, editingTitle := "" }

/-- A state whose input and edit fields hold only whitespace. -/
def wsState : AppState :=
  { todos := [sampleTodo], initialLoading := false, savingIds := []
  , error := none, newTitle := "   ", editingId := .num 1, editingTitle := " \t " }

/-- A state with a task, a pending input title and a pending edit title. -/
def busyState : AppState :=
  { todos := [sampleTodo], initialLoading := false, savingIds := []
  , error := none, newTitle := "x", editingId := .num 1, editingTitle := "y" }

/-! Helper lemmas about the displayed-list invariant. -/

/-- The invariant of §3 of the spec: every displayed task has a
non-nullish identifier. -/
def goodIds (ts : List Todo) : Bool := ts.all (fun t => !(isNullish t.id))

theorem goodIds_iff (ts : List Todo) :
    goodIds ts = true ↔ ∀ t ∈ ts, isNullish t.id = false := by
  simp [goodIds, List.all_eq_true]

theorem goodIds_processTasks (xs : List JSValue) :
    goodIds (processTasks xs) = true := by
  rw [goodIds_iff]
  intro t ht
  have h := (List.mem_filter.mp ht).2
  simpa using h

theorem refreshResult_goodIds (v : JSValue) (ts : List Todo)
    (h : refreshResult v = Except.ok ts) : goodIds ts = true := by
  unfold refreshResult at h
  cases hc : coerceListResponse v <;> rw [hc] at h <;> simp at h
  case arr xs =>
    rw [← h]
    exact goodIds_processTasks xs

theorem refreshState_goodIds (s : AppState) (res : Except JsErr JSValue)
    (h : goodIds s.todos = true) : goodIds (refreshState s res).todos = true := by
  cases res with
  | ok v =>
    cases hr : refreshResult v with
    | ok ts =>
      simpa [refreshState, hr] using refreshResult_goodIds v ts hr
    | error m => simpa [refreshState, hr] using h
  | error e => simpa [refreshState] using h

theorem goodIds_map (ts : List Todo) (f : Todo → Todo)
    (hf : ∀ t ∈ ts, isNullish (f t).id = false) :
    goodIds (ts.map f) = true := by
  rw [goodIds_iff]
  intro t ht
  obtain ⟨x, hx, rfl⟩ := List.mem_map.mp ht
  exact hf x hx

theorem goodIds_filter (ts : List Todo) (p : Todo → Bool)
    (h : goodIds ts = true) : goodIds (ts.filter p) = true := by
  rw [goodIds_iff] at h ⊢
  intro t ht
  exact h t (List.mem_filter.mp ht).1

theorem goodIds_cons (t : Todo) (ts : List Todo)
    (h₁ : isNullish t.id = false) (h₂ : goodIds ts = true) :
    goodIds (t :: ts) = true := by
  rw [goodIds_iff] at h₂ ⊢
  intro x hx
  rcases List.mem_cons.mp hx with rfl | hx
  · exact h₁
  · exact h₂ x hx

theorem truthy_eq_false_of_nullish (v : JSValue) (h : isNullish v = true) :
    truthy v = false := by
  cases v <;> simp_all [isNullish, truthy]

theorem truthy_arr (xs : List JSValue) : truthy (JSValue.arr xs) = true := rfl

/-- Claim C3, counterexample: a record with `completed: false` and
`done: true` normalizes to `completed = false`, not `true` as the claim
states — `??` stops at the first present field, it does not take "any
present truthy value". -/
theorem C3_counterexample :
    (normalizeTodo (JSValue.obj
      [("id", JSValue.num 1), ("completed", JSValue.bool false),
       ("done", JSValue.bool true)])).completed = false := by rfl

/-- Claim C3, amended: normalization resolves each field by
nullish-coalescing precedence: the id is the first non-nullish of
`id`, `todo_id`, `_id`; the title the first non-nullish of `title`,
`text`; and the completion flag is the truthiness of the FIRST
non-nullish field among `completed`, `is_completed`, `done` (so a
record with `completed: false` and `done: true` normalizes to
`completed = false`). -/
theorem C3_amended (raw : JSValue) :
    (isNullish (getProp raw "id") = false →
      (normalizeTodo raw).id = getProp raw "id") ∧
    (isNullish (getProp raw "id") = true →
      isNullish (getProp raw "todo_id") = false →
      (normalizeTodo raw).id = getProp raw "todo_id") ∧
    (isNullish (getProp raw "id") = true →
      isNullish (getProp raw "todo_id") = true →
      (normalizeTodo raw).id = getProp raw "_id") ∧
    (isNullish (getProp raw "title") = false →
      (normalizeTodo raw).title = getProp raw "title") ∧
    (isNullish (getProp raw "title") = true →
      isNullish (getProp raw "text") = false →
      (normalizeTodo raw).title = getProp raw "text") ∧
    (isNullish (getProp raw "completed") = false →
      (normalizeTodo raw).completed = truthy (getProp raw "completed")) ∧
    (isNullish (getProp raw "completed") = true →
      isNullish (getProp raw "is_completed") = false →
      (normalizeTodo raw).completed = truthy (getProp raw "is_completed")) ∧
    (isNullish (getProp raw "completed") = true →
      isNullish (getProp raw "is_completed") = true →
      (normalizeTodo raw).completed = truthy (getProp raw "done")) := by
  refine ⟨?_, ?_, ?_, ?_, ?_, ?_, ?_, ?_⟩ <;>
    intro h₁ <;> try intro h₂
  all_goals simp [normalizeTodo, nco, h₁]
  all_goals simp [h₂]

/-- Claim C3, witness: a record carrying only the fallback fields
`todo_id`, `text`, `done` resolves id 7, title "a", completed true. -/
theorem C3_witness :
    (normalizeTodo (JSValue.obj
      [("todo_id", JSValue.num 7), ("text", JSValue.str "a"),
       ("done", JSValue.bool true)])).id = JSValue.num 7 ∧
    (normalizeTodo (JSValue.obj
      [("todo_id", JSValue.num 7), ("text", JSValue.str "a"),
       ("done", JSValue.bool true)])).title = JSValue.str "a" ∧
    (normalizeTodo (JSValue.obj
      [("todo_id", JSValue.num 7), ("text", JSValue.str "a"),
       ("done", JSValue.bool true)])).completed = true := by
  have h := C3_amended (JSValue.obj
    [("todo_id", JSValue.num 7), ("text", JSValue.str "a"),
     ("done", JSValue.bool true)])
  exact ⟨h.2.1 (by rfl) (by rfl), h.2.2.2.2.1 (by rfl) (by rfl),
    (h.2.2.2.2.2.2.2 (by rfl) (by rfl)).trans (by rfl)⟩

/-- Claim C4, counterexample: a task whose identifier is the number 0 —
present, non-null, non-undefined — makes both Toggle and Delete silent
no-ops with no network call, because the guard `if (!todo?.id)` tests
truthiness, not presence. -/
theorem C4_counterexample :
    handleToggle sampleState zeroIdTodo (Except.ok JSValue.null)
        (Except.ok (JSValue.arr [])) = (sampleState, []) ∧
    handleDelete sampleState zeroIdTodo (Except.ok JSValue.null)
        = (sampleState, []) := by
  constructor <;> rfl

/-- Claim C4, amended: Toggle and Delete are no-ops exactly when the
task's identifier is FALSY (absent, null, undefined, 0, the empty
string, or false): a falsy identifier causes no state change and no
network call, while for every truthy identifier Toggle flips
`completed` locally and issues the update call and Delete removes the
task locally and issues the delete call. -/
theorem C4_amended (s : AppState) (t : Todo)
    (upd del rres : Except JsErr JSValue) (v w : JSValue) :
    (truthy t.id = false →
      handleToggle s t upd rres = (s, []) ∧ handleDelete s t del = (s, [])) ∧
    (truthy t.id = true →
      (handleToggle s t upd rres).snd.head?
          = some (ApiCall.updateTodo t.id
              (JSValue.obj [("completed", JSValue.bool (!t.completed))])) ∧
      (handleToggle s t (Except.ok v) rres).fst.todos
          = s.todos.map
              (fun x => if x.id = t.id then { x with completed := !t.completed } else x) ∧
      (handleDelete s t del).snd = [ApiCall.deleteTodo t.id] ∧
      (handleDelete s t (Except.ok w)).fst.todos
          = s.todos.filter (fun x => x.id != t.id)) := by
  constructor
  · intro h
    constructor <;> simp [handleToggle, handleDelete, h]
  · intro h
    refine ⟨?_, ?_, ?_, ?_⟩
    · cases upd <;> simp [handleToggle, refresh, h]
    · simp [handleToggle, h]
    · cases del <;> simp [handleDelete, h]
    · simp [handleDelete, h]

/-- Claim C4, witness: the no-op branch at identifier 0 and the active
branch at identifier 1, instantiated concretely. -/
theorem C4_witness :
    handleToggle sampleState zeroIdTodo (Except.ok JSValue.undefined)
        (Except.ok (JSValue.arr [])) = (sampleState, []) ∧
    handleDelete sampleState zeroIdTodo (Except.ok JSValue.undefined)
        = (sampleState, []) ∧
    (handleToggle sampleState sampleTodo (Except.ok JSValue.null)
        (Except.ok (JSValue.arr []))).snd.head?
        = some (ApiCall.updateTodo sampleTodo.id
            (JSValue.obj [("completed", JSValue.bool (!sampleTodo.completed))])) ∧
    (handleDelete sampleState sampleTodo (Except.ok JSValue.null)).snd
        = [ApiCall.deleteTodo sampleTodo.id] := by
  have h₀ := C4_amended sampleState zeroIdTodo (Except.ok JSValue.undefined)
    (Except.ok JSValue.undefined) (Except.ok (JSValue.arr [])) JSValue.null JSValue.null
  have h₁ := C4_amended sampleState sampleTodo (Except.ok JSValue.null)
    (Except.ok JSValue.null) (Except.ok (JSValue.arr [])) JSValue.null JSValue.null
  exact ⟨(h₀.1 (by rfl)).1, (h₀.1 (by rfl)).2, (h₁.2 (by rfl)).1,
    (h₁.2 (by rfl)).2.2.1⟩

/-- Claim C5 (confirmed): for a task with a (truthy) identifier, Delete
removes exactly the matching tasks from the list, and when the remote
delete fails the list is restored to the exact pre-delete snapshot —
every task back at its original index — while the failure is surfaced. -/
theorem C5 (s : AppState) (t : Todo) (e : JsErr) (v : JSValue)
    (h : truthy t.id = true) :
    (handleDelete s t (Except.ok v)).fst.todos
        = s.todos.filter (fun x => x.id != t.id) ∧
    (handleDelete s t (Except.error e)).fst.todos = s.todos ∧
    (handleDelete s t (Except.error e)).fst.error = some (toErrorMessage e) := by
  refine ⟨?_, ?_, ?_⟩ <;> simp [handleDelete, h]

/-- Claim C5, witness: deleting the sample task removes it, and a failed
delete restores the original list. -/
theorem C5_witness :
    (handleDelete sampleState sampleTodo (Except.ok JSValue.null)).fst.todos
        = sampleState.todos.filter (fun x => x.id != sampleTodo.id) ∧
    (handleDelete sampleState sampleTodo
        (Except.error { message := "boom" })).fst.todos = sampleState.todos := by
  have h := C5 sampleState sampleTodo { message := "boom" } JSValue.null (by rfl)
  exact ⟨h.1, h.2.1⟩

/-- Claim C7 (confirmed): the request wrapper's timeout constant is
15000 ms; a timed-out (aborted) request surfaces the fixed
"Request timed out. Please try again." error with no status code, while
every non-2xx response surfaces an error carrying its numeric status
code — so the two are distinguishable by the presence of a status. -/
theorem C7 (status : Nat) (payload : JSValue) (hbad : resOk status = false) :
    DEFAULT_TIMEOUT_MS = 15000 ∧
    fetchJson FetchOutcome.timeout
        = Except.error { message := "Request timed out. Please try again."
                       , status := none, payload := none } ∧
    fetchJson (FetchOutcome.response status payload)
        = Except.error { message := jsToDisplayString (statusMessageValue status payload)
                       , status := some status, payload := some payload } := by
  refine ⟨rfl, rfl, ?_⟩
  simp [fetchJson, hbad]

/-- Claim C7, witness: a 500 response with a null body yields the
generic status message with status 500, distinguishable from the
status-free timeout error. -/
theorem C7_witness :
    DEFAULT_TIMEOUT_MS = 15000 ∧
    fetchJson FetchOutcome.timeout
        = Except.error { message := "Request timed out. Please try again."
                       , status := none, payload := none } ∧
    fetchJson (FetchOutcome.response 500 JSValue.null)
        = Except.error { message := "Request failed with status 500"
                       , status := some 500, payload := some JSValue.null } := by
  have h := C7 500 JSValue.null (by rfl)
  exact ⟨h.1, h.2.1, h.2.2⟩

/-- Claim C9 (confirmed): Add with an empty trimmed title and Edit with
an empty trimmed title are silent no-ops: the full component state is
returned unchanged (so no error is surfaced and the edit mode fields
are untouched) and the list of issued network calls is empty. -/
theorem C9 (s : AppState) (now : Nat) (t : Todo)
    (c r u r₂ : Except JsErr JSValue)
    (hadd : jsTrim s.newTitle = "") (hedit : jsTrim s.editingTitle = "") :
    handleAdd s now c r = (s, []) ∧ saveEdit s t u r₂ = (s, []) := by
  constructor
  · simp [handleAdd, hadd]
  · simp [saveEdit, hedit]

/-- Claim C9, witness: whitespace-only input and edit titles leave the
state untouched and issue no calls. -/
theorem C9_witness :
    handleAdd wsState 0 (Except.ok JSValue.null) (Except.ok (JSValue.arr []))
        = (wsState, []) ∧
    saveEdit wsState sampleTodo (Except.ok JSValue.null)
        (Except.ok (JSValue.arr [])) = (wsState, []) := by
  exact C9 wsState 0 sampleTodo (Except.ok JSValue.null)
    (Except.ok (JSValue.arr [])) (Except.ok JSValue.null)
    (Except.ok (JSValue.arr [])) (by rfl) (by rfl)

/-- Claim C10 (confirmed): normalization is total — `normalizeTodo` is a
function defined on every `JSValue`, including `null` and `undefined`,
thanks to the optional chaining — and it defaults the title to the
empty string and `completed` to false when no recognized field is
present; consequently a record with a (non-nullish) identifier but no
title field survives the Refresh filter and is displayed with an empty
title. -/
theorem C10 (raw : JSValue)
    (hti : isNullish (getProp raw "title") = true)
    (htx : isNullish (getProp raw "text") = true) :
    (normalizeTodo raw).title = JSValue.str "" ∧
    (isNullish (getProp raw "completed") = true →
      isNullish (getProp raw "is_completed") = true →
      isNullish (getProp raw "done") = true →
      (normalizeTodo raw).completed = false) ∧
    normalizeTodo JSValue.null
        = { id := JSValue.undefined, title := JSValue.str ""
          , completed := false, raw := JSValue.null } ∧
    normalizeTodo JSValue.undefined
        = { id := JSValue.undefined, title := JSValue.str ""
          , completed := false, raw := JSValue.undefined } ∧
    (isNullish (normalizeTodo raw).id = false →
      refreshResult (JSValue.arr [raw]) = Except.ok [normalizeTodo raw]) := by
  refine ⟨?_, ?_, by rfl, by rfl, ?_⟩
  · simp [normalizeTodo, nco, hti, htx]
  · intro h₁ h₂ h₃
    simp [normalizeTodo, nco, h₁, h₂]
    exact truthy_eq_false_of_nullish _ h₃
  · intro hid
    simp [refreshResult, coerceListResponse, processTasks, hid]

/-- Claim C10, witness: the record with only an id field survives
Refresh with an empty title and `completed = false`. -/
theorem C10_witness :
    (normalizeTodo (JSValue.obj [("id", JSValue.num 5)])).title
        = JSValue.str "" ∧
    refreshResult (JSValue.arr [JSValue.obj [("id", JSValue.num 5)]])
        = Except.ok [normalizeTodo (JSValue.obj [("id", JSValue.num 5)])] := by
  have h := C10 (JSValue.obj [("id", JSValue.num 5)]) (by rfl) (by rfl)
  exact ⟨h.1, h.2.2.2.2 (by rfl)⟩

/-- Claim C1, counterexample: a Toggle whose update call fails with
message "boom" and whose recovery Refresh succeeds ends with NO error
banner at all — `refresh` begins by clearing the error, so the failure
message does not persist through the recovery Refresh. -/
theorem C1_counterexample :
    (handleToggle sampleState sampleTodo (Except.error { message := "boom" })
        (Except.ok (JSValue.arr []))).fst.error = none := by rfl

/-- Claim C1, amended: for Add, Toggle and Edit, a remote failure is
surfaced and the recovery Refresh is triggered, but the Refresh clears
the error banner at its start: whenever the recovery Refresh's own
fetch succeeds, the operation completes with an empty error banner —
the failure message is displayed only until the recovery Refresh runs,
not until the next operation starts. -/
theorem C1_amended (s : AppState) (t : Todo) (e : JsErr) (v : JSValue)
    (ts : List Todo) (now : Nat)
    (hid : truthy t.id = true)
    (hadd : jsTrim s.newTitle ≠ "")
    (hedit : jsTrim s.editingTitle ≠ "")
    (hv : refreshResult v = Except.ok ts) :
    (handleToggle s t (Except.error e) (Except.ok v)).fst.error = none ∧
    (saveEdit s t (Except.error e) (Except.ok v)).fst.error = none ∧
    (handleAdd s now (Except.error e) (Except.ok v)).fst.error = none := by
  refine ⟨?_, ?_, ?_⟩
  · simp [handleToggle, refresh, refreshState, hid, hv]
  · simp [saveEdit, refresh, refreshState, hedit, hv]
  · simp [handleAdd, refresh, refreshState, hadd, hv]

/-- Claim C1, witness: all three failing operations with a succeeding
recovery Refresh end with an empty error banner. -/
theorem C1_witness :
    (handleToggle busyState sampleTodo (Except.error { message := "boom" })
        (Except.ok (JSValue.arr []))).fst.error = none ∧
    (saveEdit busyState sampleTodo (Except.error { message := "boom" })
        (Except.ok (JSValue.arr []))).fst.error = none ∧
    (handleAdd busyState 0 (Except.error { message := "boom" })
        (Except.ok (JSValue.arr []))).fst.error = none := by
  exact C1_amended busyState sampleTodo { message := "boom" } (JSValue.arr [])
    [] 0 (by rfl) (by decide) (by decide) (by rfl)

/-- Claim C2, counterexample: a plain object response — neither an
array nor an object with a task sequence under `items`/`todos` — is NOT
signaled as an error: Refresh silently accepts it, leaves the error
banner empty and replaces the list with the empty list. -/
theorem C2_counterexample :
    (refresh sampleState (Except.ok (JSValue.obj []))).fst.error = none ∧
    (refresh sampleState (Except.ok (JSValue.obj []))).fst.todos = [] := by
  constructor <;> rfl

/-- Claim C2, amended: the three tolerated shapes — a bare array, an
object with an array under `items`, or (when `items` is falsy) an array
under `todos` — are accepted in full without crashing; but a response
of unknown shape is signaled as an error only when the selected
`items`/`todos` value is truthy and not an array (the `.map` call
throws); when both properties are falsy or absent the response is
silently accepted as the empty list, not an error. -/
theorem C2_amended (xs : List JSValue) (fs : List (String × JSValue))
    (res : JSValue) :
    refreshResult (JSValue.arr xs) = Except.ok (processTasks xs) ∧
    (getProp (JSValue.obj fs) "items" = JSValue.arr xs →
      refreshResult (JSValue.obj fs) = Except.ok (processTasks xs)) ∧
    (truthy (getProp (JSValue.obj fs) "items") = false →
      getProp (JSValue.obj fs) "todos" = JSValue.arr xs →
      refreshResult (JSValue.obj fs) = Except.ok (processTasks xs)) ∧
    ((∀ ys, res ≠ JSValue.arr ys) →
      truthy (getProp res "items") = false →
      truthy (getProp res "todos") = false →
      refreshResult res = Except.ok []) ∧
    ((∀ ys, res ≠ JSValue.arr ys) →
      truthy (getProp res "items") = true →
      (∀ ys, getProp res "items" ≠ JSValue.arr ys) →
      refreshResult res = Except.error "arr.map is not a function") := by
  refine ⟨rfl, ?_, ?_, ?_, ?_⟩
  · intro hit
    simp [refreshResult, coerceListResponse, jsOr, hit, truthy]
  · intro hif hto
    simp [refreshResult, coerceListResponse, jsOr, hif, hto, truthy_arr]
  · intro hnarr hif hto
    cases res with
    | arr ys => exact absurd rfl (hnarr ys)
    | obj fs₂ =>
      simp [refreshResult, coerceListResponse, jsOr, hif, hto, processTasks]
    | undefined => rfl
    | null => rfl
    | bool b => rfl
    | num n => rfl
    | str st => rfl
  · intro hnarr hit hnia
    cases res with
    | arr ys => exact absurd rfl (hnarr ys)
    | undefined => simp [getProp, truthy] at hit
    | null => simp [getProp, truthy] at hit
    | bool b =>
      simp [getProp, truthy] at hit
    | num n =>
      simp [getProp, truthy] at hit
    | str st =>
      simp [getProp, truthy] at hit
    | obj fs₂ =>
      cases hitem : getProp (JSValue.obj fs₂) "items" with
      | arr ys => exact absurd hitem (hnia ys)
      | undefined => rw [hitem] at hit; simp [truthy] at hit
      | null => rw [hitem] at hit; simp [truthy] at hit
      | bool b =>
        rw [hitem] at hit
        simp [truthy] at hit
        simp [refreshResult, coerceListResponse, jsOr, hitem, truthy, hit]
      | num n =>
        rw [hitem] at hit
        simp [truthy] at hit
        simp [refreshResult, coerceListResponse, jsOr, hitem, truthy, hit]
      | str st =>
        rw [hitem] at hit
        simp [truthy] at hit
        simp [refreshResult, coerceListResponse, jsOr, hitem, truthy, hit]
      | obj gs =>
        simp [refreshResult, coerceListResponse, jsOr, hitem, truthy]

/-- Claim C2, witness: an `items` array is accepted, an empty object is
silently accepted as the empty list, and a non-array truthy `items`
value raises the `.map` type error. -/
theorem C2_witness :
    refreshResult (JSValue.obj
        [("items", JSValue.arr [JSValue.obj [("id", JSValue.num 3)]])])
        = Except.ok (processTasks [JSValue.obj [("id", JSValue.num 3)]]) ∧
    refreshResult (JSValue.obj []) = Except.ok [] ∧
    refreshResult (JSValue.obj [("items", JSValue.num 1)])
        = Except.error "arr.map is not a function" := by
  have h₁ := C2_amended [JSValue.obj [("id", JSValue.num 3)]]
    [("items", JSValue.arr [JSValue.obj [("id", JSValue.num 3)]])]
    (JSValue.obj [])
  have h₂ := C2_amended [] ([] : List (String × JSValue))
    (JSValue.obj [("items", JSValue.num 1)])
  refine ⟨h₁.2.1 (by rfl),
    h₁.2.2.2.1 (fun ys hc => JSValue.noConfusion hc) (by rfl) (by rfl),
    h₂.2.2.2.2 (fun ys hc => JSValue.noConfusion hc) (by rfl)
      (fun ys hc => JSValue.noConfusion hc)⟩

/-- Claim C6 (confirmed): Add with a non-empty trimmed title prepends
exactly one placeholder carrying that title, `completed = false` and
the generated temporary identifier; when the create call succeeds the
placeholder — matched by the temporary identifier, which no existing
task carries — is replaced by the normalized authoritative record, and
the final length equals the post-optimistic-insert count. -/
theorem C6 (s : AppState) (now : Nat) (created : JSValue)
    (rres : Except JsErr JSValue)
    (h : jsTrim s.newTitle ≠ "")
    (hfresh : ∀ x ∈ s.todos, x.id ≠ JSValue.str ("temp-" ++ toString now)) :
    (handleAddOptimistic s now (jsTrim s.newTitle)).todos
        = optimisticTodo now (jsTrim s.newTitle) :: s.todos ∧
    (optimisticTodo now (jsTrim s.newTitle)).title
        = JSValue.str (jsTrim s.newTitle) ∧
    (optimisticTodo now (jsTrim s.newTitle)).completed = false ∧
    (optimisticTodo now (jsTrim s.newTitle)).id
        = JSValue.str ("temp-" ++ toString now) ∧
    (handleAdd s now (Except.ok created) rres).fst.todos
        = normalizeTodo created :: s.todos ∧
    (handleAdd s now (Except.ok created) rres).fst.todos.length
        = (handleAddOptimistic s now (jsTrim s.newTitle)).todos.length ∧
    (handleAdd s now (Except.ok created) rres).snd
        = [ApiCall.createTodo (JSValue.obj
            [("title", JSValue.str (jsTrim s.newTitle))])] := by
  have hmap : ∀ ts : List Todo,
      (∀ x ∈ ts, x.id ≠ JSValue.str ("temp-" ++ toString now)) →
      ts.map (fun t => if t.id = (optimisticTodo now (jsTrim s.newTitle)).id
        then normalizeTodo created else t) = ts := by
    intro ts
    induction ts with
    | nil => intro _; rfl
    | cons a tl ih =>
      intro hts
      have ha : ¬(a.id = (optimisticTodo now (jsTrim s.newTitle)).id) := by
        simpa [optimisticTodo] using hts a (List.mem_cons_self a tl)
      simp only [List.map_cons, if_neg ha]
      rw [ih (fun x hx => hts x (List.mem_cons_of_mem a hx))]
  have hfin : (handleAdd s now (Except.ok created) rres).fst.todos
      = normalizeTodo created :: s.todos := by
    simp [handleAdd, handleAddOptimistic, h]
    exact hmap s.todos hfresh
  refine ⟨rfl, rfl, rfl, rfl, hfin, ?_, ?_⟩
  · rw [hfin]
    simp [handleAddOptimistic]
  · simp [handleAdd, h]

/-- Claim C6, witness: adding "x" to an empty list and resolving the
create with id 42 leaves exactly the normalized record, with the length
equal to the post-insert count. -/
theorem C6_witness :
    (handleAdd addState 0 (Except.ok (JSValue.obj
        [("id", JSValue.num 42), ("title", JSValue.str "x")]))
      (Except.ok (JSValue.arr []))).fst.todos
        = normalizeTodo (JSValue.obj
            [("id", JSValue.num 42), ("title", JSValue.str "x")])
          :: addState.todos ∧
    (handleAdd addState 0 (Except.ok (JSValue.obj
        [("id", JSValue.num 42), ("title", JSValue.str "x")]))
      (Except.ok (JSValue.arr []))).fst.todos.length
        = (handleAddOptimistic addState 0 (jsTrim addState.newTitle)).todos.length := by
  have h := C6 addState 0
    (JSValue.obj [("id", JSValue.num 42), ("title", JSValue.str "x")])
    (Except.ok (JSValue.arr [])) (by decide) (by simp [addState])
  exact ⟨h.2.2.2.2.1, h.2.2.2.2.2.1⟩

/-- Claim C8, counterexample: when the create call resolves with a
record carrying NO resolvable identifier, the placeholder is replaced
by a task whose id is `undefined`, which stays in the displayed list —
the invariant is not preserved by Add's placeholder replacement. -/
theorem C8_counterexample :
    goodIds (handleAdd addState 0
        (Except.ok (JSValue.obj [("title", JSValue.str "x")]))
        (Except.ok (JSValue.arr []))).fst.todos = false := by rfl

/-- Claim C8, amended: the invariant — every displayed task has a
non-nullish identifier — is preserved unconditionally by Refresh,
Toggle, Edit, Delete, Add's optimistic insert and Add's failure path,
and by Add's placeholder replacement PROVIDED the create response
normalizes to a task with a resolvable identifier; a create response
with none puts an id-less task in the list. -/
theorem C8_amended (s : AppState) (h : goodIds s.todos = true) :
    (∀ res, goodIds (refresh s res).fst.todos = true) ∧
    (∀ t upd rres, goodIds (handleToggle s t upd rres).fst.todos = true) ∧
    (∀ t upd rres, goodIds (saveEdit s t upd rres).fst.todos = true) ∧
    (∀ t del, goodIds (handleDelete s t del).fst.todos = true) ∧
    (∀ now, goodIds (handleAddOptimistic s now (jsTrim s.newTitle)).todos = true) ∧
    (∀ now e rres, goodIds (handleAdd s now (Except.error e) rres).fst.todos = true) ∧
    (∀ now created rres, isNullish (normalizeTodo created).id = false →
      goodIds (handleAdd s now (Except.ok created) rres).fst.todos = true) := by
  refine ⟨?_, ?_, ?_, ?_, ?_, ?_, ?_⟩
  · intro res
    simpa [refresh] using refreshState_goodIds s res h
  · intro t upd rres
    cases hid : truthy t.id with
    | false => simpa [handleToggle, hid] using h
    | true =>
      have hmap : goodIds (s.todos.map (fun x =>
          if x.id = t.id then { x with completed := !t.completed } else x)) = true := by
        apply goodIds_map
        intro x hx
        have hx' := (goodIds_iff _).mp h x hx
        by_cases hxe : x.id = t.id
        · rw [if_pos hxe]; exact hx'
        · rw [if_neg hxe]; exact hx'
      cases upd with
      | ok v => simpa [handleToggle, hid] using hmap
      | error e =>
        simp only [handleToggle, hid, refresh, Bool.not_true, Bool.false_eq_true,
          if_false]
        exact refreshState_goodIds _ _ hmap
  · intro t upd rres
    by_cases ht : jsTrim s.editingTitle = ""
    · simpa [saveEdit, ht] using h
    · have hmap : goodIds (s.todos.map (fun x =>
          if x.id = t.id then { x with title := JSValue.str (jsTrim s.editingTitle) }
          else x)) = true := by
        apply goodIds_map
        intro x hx
        have hx' := (goodIds_iff _).mp h x hx
        by_cases hxe : x.id = t.id
        · rw [if_pos hxe]; exact hx'
        · rw [if_neg hxe]; exact hx'
      cases upd with
      | ok v => simpa [saveEdit, cancelEdit, ht] using hmap
      | error e =>
        simp only [saveEdit, ht, refresh, if_false]
        exact refreshState_goodIds _ _ hmap
  · intro t del
    cases hid : truthy t.id with
    | false => simpa [handleDelete, hid] using h
    | true =>
      cases del with
      | ok v =>
        simpa [handleDelete, hid] using goodIds_filter s.todos _ h
      | error e => simpa [handleDelete, hid] using h
  · intro now
    exact goodIds_cons _ _ (by rfl) h
  · intro now e rres
    by_cases ht : jsTrim s.newTitle = ""
    · simpa [handleAdd, ht] using h
    · simp only [handleAdd, ht, refresh, if_false]
      exact refreshState_goodIds _ _ (goodIds_cons _ _ (by rfl) h)
  · intro now created rres hnorm
    by_cases ht : jsTrim s.newTitle = ""
    · simpa [handleAdd, ht] using h
    · simp only [handleAdd, handleAddOptimistic, ht, if_false]
      apply goodIds_map
      intro x hx
      by_cases hxe : x.id = (optimisticTodo now (jsTrim s.newTitle)).id
      · simpa [hxe] using hnorm
      · simp only [if_neg hxe]
        rcases List.mem_cons.mp hx with rfl | hx'
        · rfl
        · exact (goodIds_iff _).mp h x hx'

/-- Claim C8, witness: the invariant holds after a concrete Refresh,
Toggle and Add-with-id-carrying-response. -/
theorem C8_witness :
    goodIds (refresh sampleState (Except.ok (JSValue.arr []))).fst.todos = true ∧
    goodIds (handleToggle sampleState sampleTodo (Except.ok JSValue.null)
        (Except.ok (JSValue.arr []))).fst.todos = true ∧
    goodIds (handleAdd addState 0
        (Except.ok (JSValue.obj [("id", JSValue.num 42)]))
        (Except.ok (JSValue.arr []))).fst.todos = true := by
  have h₁ := C8_amended sampleState (by rfl)
  have h₂ := C8_amended addState (by rfl)
  exact ⟨h₁.1 _, h₁.2.1 _ _ _, h₂.2.2.2.2.2.2 0 _ _ (by rfl)⟩

end TodoApp
